import Mathlib

/-!
Verification of the Python-Drone-Simulation repository
(`voice_control.py`, `offboard_control.py`).

Shallow embedding conventions:
* Python strings are modelled as `List Char`; Python `float` values as `ℚ`
  (the claims are algebraic relations between the numeric constants of the
  source, so rationals model them exactly).
* The side-effecting command loops are modelled as pure step functions that
  return the trace of calls made to the vehicle collaborator
  (`Event` lists), the updated `yaw_heading`, and whether the loop breaks.
* The remote language model and the transcription engine are opaque
  collaborators; a remote round trip is an `Except Unit (List Char)`
  (transport failure or raw response text).
-/

/-- Characters treated as whitespace by Python's `str.strip` (ASCII range:
space, tab, newline, carriage return, vertical tab, form feed). -/
def pySpace (c : Char) : Bool :=
  [' ', '\t', '\n', '\r', Char.ofNat 11, Char.ofNat 12].contains c

/-- Python `str.strip()`: remove whitespace from both ends. -/
def pyStrip (l : List Char) : List Char :=
  ((l.dropWhile pySpace).reverse.dropWhile pySpace).reverse

/-- Python `str.lower()` (ASCII). -/
def pyLower (l : List Char) : List Char :=
  l.map Char.toLower

/-- Models Python `s.startswith(pat)` (pattern first). -/
def startsWith : List Char → List Char → Bool
  | [], _ => true
  | _ :: _, [] => false
  | p :: ps, c :: rest => p == c && startsWith ps rest

/-- Models Python `s.endswith(pat)` (pattern first). -/
def endsWith (pat s : List Char) : Bool :=
  startsWith pat.reverse s.reverse

/-- Models Python's substring test `pat in s` (pattern first). -/
def containsSub (pat : List Char) : List Char → Bool
  | [] => startsWith pat []
  | c :: rest => startsWith pat (c :: rest) || containsSub pat rest

/-- Suffix of `s` after the last occurrence of `pat`, i.e. Python
`s.split(pat)[-1]` for a non-empty separator (`s` itself when absent). -/
def afterLastOpt (pat : List Char) : List Char → Option (List Char)
  | [] => if pat.isEmpty then some [] else none
  | c :: rest =>
    match afterLastOpt pat rest with
    | some r => some r
    | none =>
      if startsWith pat (c :: rest) then some ((c :: rest).drop pat.length)
      else none

/-- Python `s.split(pat)[-1]`. -/
def afterLast (pat s : List Char) : List Char :=
  match afterLastOpt pat s with
  | some r => r
  | none => s

/-- Helper for `splitWsPy`: words accumulated in reverse. -/
def splitWsAux : List Char → List Char → List (List Char)
  | [], acc => if acc.isEmpty then [] else [acc.reverse]
  | c :: rest, acc =>
    if pySpace c then
      if acc.isEmpty then splitWsAux rest [] else acc.reverse :: splitWsAux rest []
    else splitWsAux rest (c :: acc)

/-- Python `s.split()` (no separator): split on whitespace runs,
discarding empty pieces. -/
def splitWsPy (l : List Char) : List (List Char) :=
  splitWsAux l []

/-- Numeric value of a digit string. -/
def digitsVal (ds : List Char) : ℕ :=
  ds.foldl (fun a c => a * 10 + (c.toNat - 48)) 0

/-- Python `int(s)` on a stripped literal: optional sign, then decimal
digits (underscored and exotic literals are not used by this repository). -/
def parseInt (l : List Char) : Option ℤ :=
  match l with
  | '-' :: ds =>
    if !ds.isEmpty && ds.all Char.isDigit then some (-(digitsVal ds : ℤ)) else none
  | '+' :: ds =>
    if !ds.isEmpty && ds.all Char.isDigit then some (digitsVal ds : ℤ) else none
  | ds =>
    if !ds.isEmpty && ds.all Char.isDigit then some (digitsVal ds : ℤ) else none

/-- Unsigned decimal literal with optional fractional part,
as accepted by Python `float` for the ordinary literals this program uses. -/
def parseUFloat (ds : List Char) : Option ℚ :=
  let ip := ds.takeWhile Char.isDigit
  match ds.dropWhile Char.isDigit with
  | [] => if ip.isEmpty then none else some (digitsVal ip : ℚ)
  | '.' :: fp =>
    if fp.all Char.isDigit && !(ip.isEmpty && fp.isEmpty) then
      some ((digitsVal ip : ℚ) + (digitsVal fp : ℚ) / 10 ^ fp.length)
    else none
  | _ => none

/-- Python `float(s)` on ordinary decimal literals (optional sign). -/
def parseFloat (l : List Char) : Option ℚ :=
  match l with
  | '-' :: ds => (parseUFloat ds).map (fun q => -q)
  | '+' :: ds => parseUFloat ds
  | ds => parseUFloat ds

/-! ## JSON values (model of `json.loads`)

The remote interpreter is contracted to answer with one JSON object, so the
model covers the JSON subset actually exchanged: objects, strings, numbers
(decimal, optional sign and fraction), booleans and `null`.  A text that is
not such a value, or that has trailing non-whitespace data, fails to decode,
exactly like `json.loads` raising `JSONDecodeError`. -/

inductive Json where
  | null : Json
  | bool (b : Bool) : Json
  | num (q : ℚ) : Json
  | str (s : List Char) : Json
  | obj (fields : List (List Char × Json)) : Json

/-- JSON whitespace. -/
def jsonWs (c : Char) : Bool :=
  [' ', '\t', '\n', '\r'].contains c

/-- Skip JSON whitespace. -/
def jskipWs (l : List Char) : List Char :=
  l.dropWhile jsonWs

/-- The JSON string escape table, from escape letter to denoted character
(the `\u` form is unused by this program's prompts and left undecoded). -/
def escPairs : List (Char × Char) :=
  [('"', '"'), ('\\', '\\'), ('/', '/'), ('n', '\n'),
   ('t', '\t'), ('r', '\r'), ('b', Char.ofNat 8), ('f', Char.ofNat 12)]

/-- Translate a JSON string escape character via the table. -/
def escChar (c : Char) : Option Char :=
  (escPairs.find? (fun p => p.1 == c)).map (fun p => p.2)

/-- Parse the body of a JSON string after the opening quote:
returns the string contents and the rest after the closing quote. -/
def parseStringBody : List Char → Option (List Char × List Char)
  | [] => none
  | '"' :: rest => some ([], rest)
  | '\\' :: c :: rest =>
    match escChar c with
    | some e =>
      match parseStringBody rest with
      | some (s, r) => some (e :: s, r)
      | none => none
    | none => none
  | c :: rest =>
    match parseStringBody rest with
    | some (s, r) => some (c :: s, r)
    | none => none

/-- Parse a JSON number (optional minus, digits, optional fraction). -/
def parseNum (l : List Char) : Option (ℚ × List Char) :=
  let (sgn, l1) : ℚ × List Char :=
    match l with
    | '-' :: r => (-1, r)
    | _ => (1, l)
  let ip := l1.takeWhile Char.isDigit
  if ip.isEmpty then none
  else
    match l1.dropWhile Char.isDigit with
    | '.' :: r =>
      let fp := r.takeWhile Char.isDigit
      if fp.isEmpty then none
      else
        some (sgn * ((digitsVal ip : ℚ) + (digitsVal fp : ℚ) / 10 ^ fp.length),
          r.dropWhile Char.isDigit)
    | l2 => some (sgn * (digitsVal ip : ℚ), l2)

mutual

/-- Parse one JSON value (fuel-indexed recursion). -/
def parseValue : ℕ → List Char → Option (Json × List Char)
  | 0, _ => none
  | fuel + 1, l =>
    if startsWith "true".toList (jskipWs l) then
      some (.bool true, (jskipWs l).drop 4)
    else if startsWith "false".toList (jskipWs l) then
      some (.bool false, (jskipWs l).drop 5)
    else if startsWith "null".toList (jskipWs l) then
      some (.null, (jskipWs l).drop 4)
    else
    match jskipWs l with
    | '"' :: r =>
      match parseStringBody r with
      | some (s, rest) => some (.str s, rest)
      | none => none
    | '{' :: r =>
      match jskipWs r with
      | '}' :: r2 => some (.obj [], r2)
      | r2 =>
        match parseMembers fuel r2 with
        | some (fs, rest) => some (.obj fs, rest)
        | none => none
    | l2 =>
      match parseNum l2 with
      | some (q, r) => some (.num q, r)
      | none => none

/-- Parse the members of a JSON object, positioned at the first key. -/
def parseMembers : ℕ → List Char → Option (List (List Char × Json) × List Char)
  | 0, _ => none
  | fuel + 1, l =>
    match l with
    | '"' :: r =>
      match parseStringBody r with
      | some (k, r1) =>
        match jskipWs r1 with
        | ':' :: r2 =>
          match parseValue fuel r2 with
          | some (v, r3) =>
            match jskipWs r3 with
            | ',' :: r4 =>
              match parseMembers fuel (jskipWs r4) with
              | some (fs, rest) => some ((k, v) :: fs, rest)
              | none => none
            | '}' :: r4 => some ([(k, v)], r4)
            | _ => none
          | none => none
        | _ => none
      | none => none
    | _ => none

end

/-- Model of `json.loads`: decode one JSON value, requiring only whitespace
after it; `none` models a raised `JSONDecodeError`. -/
def jsonLoads (l : List Char) : Option Json :=
  match parseValue (l.length + 1) l with
  | some (j, rest) => if jskipWs rest = [] then some j else none
  | none => none

/-- Field lookup in a JSON object (first binding wins, as in the decoded
Python dict for the keys this program uses). -/
def findField (k : List Char) : List (List Char × Json) → Option Json
  | [] => none
  | (k', v) :: rest => if k == k' then some v else findField k rest

/-- Field access `j[k]` when `j` is an object holding key `k`. -/
def Json.lookup (k : List Char) : Json → Option Json
  | .obj fields => findField k fields
  | _ => none

/-! ## Command Interpreter Adapter (`DroneCommandProcessor`) -/

/-- Models `any(word in speech for word in ws)`. -/
def anyWord (speech : List Char) (ws : List (List Char)) : Bool :=
  ws.any (fun w => containsSub w speech)

/-- Fallback record for a movement keyword:
`{"is_drone_command": True, "action": a, "parameters": {"distance": 2.0}}`. -/
def mkMove (a : List Char) : Json :=
  .obj [("is_drone_command".toList, .bool true),
        ("action".toList, .str a),
        ("parameters".toList, .obj [("distance".toList, .num 2.0)])]

/-- Fallback record for a rotation keyword (default angle 90). -/
def mkRot (a : List Char) : Json :=
  .obj [("is_drone_command".toList, .bool true),
        ("action".toList, .str a),
        ("parameters".toList, .obj [("angle".toList, .num 90)])]

/-- Fallback record for an action/control keyword (empty parameters). -/
def mkAct (a : List Char) : Json :=
  .obj [("is_drone_command".toList, .bool true),
        ("action".toList, .str a),
        ("parameters".toList, .obj [])]

/-- Fallback record when no keyword matches. -/
def notCmd : Json :=
  .obj [("is_drone_command".toList, .bool false),
        ("interpretation".toList, .str "Not a drone command".toList)]

/-- The ordered keyword-containment cascade of
`DroneCommandProcessor._fallback_processing`, run on the lowercased
utterance when the language model is unavailable or returned undecodable
output. -/
def fallbackCascade (speech : List Char) : Json :=
  if anyWord speech ["forward".toList, "ahead".toList, "front".toList] then
    mkMove "forward".toList
  else if anyWord speech ["back".toList, "backward".toList, "reverse".toList] then
    mkMove "backward".toList
  else if anyWord speech ["left".toList] && !containsSub "turn".toList speech then
    mkMove "left".toList
  else if anyWord speech ["right".toList] && !containsSub "turn".toList speech then
    mkMove "right".toList
  else if anyWord speech ["up".toList, "rise".toList, "ascend".toList] then
    mkMove "up".toList
  else if anyWord speech ["down".toList, "descend".toList, "lower".toList] then
    mkMove "down".toList
  else if containsSub "turn right".toList speech then
    mkRot "turn_right".toList
  else if containsSub "turn left".toList speech then
    mkRot "turn_left".toList
  else if anyWord speech ["land".toList, "landing".toList] then
    mkAct "land".toList
  else if anyWord speech ["takeoff".toList, "take off".toList, "launch".toList] then
    mkAct "takeoff".toList
  else if anyWord speech ["home".toList, "return".toList, "rth".toList] then
    mkAct "return_home".toList
  else if anyWord speech ["stop".toList, "halt".toList, "hover".toList] then
    mkAct "stop".toList
  else if anyWord speech ["exit".toList, "quit".toList, "end".toList] then
    mkAct "exit".toList
  else
    notCmd

/-- Model of `DroneCommandProcessor._fallback_processing`: lowercase the utterance
(`speech = speech_text.lower()`) and run the ordered keyword cascade. -/
def fallbackProcessing (speechText : List Char) : Json :=
  fallbackCascade (pyLower speechText)

/-- The leading-fence removal step of `process_speech`:
`if response_text.startswith("\x60\x60\x60json"): response_text = response_text[7:]`. -/
def dropLeadFence (r : List Char) : List Char :=
  if startsWith "```json".toList r then r.drop 7 else r

/-- The trailing-fence removal step:
`if response_text.endswith("\x60\x60\x60"): response_text = response_text[:-3]`. -/
def dropTailFence (r : List Char) : List Char :=
  if endsWith "```".toList r then r.take (r.length - 3) else r

/-- The full response-cleaning pipeline of `process_speech`. -/
def stripFences (resp : List Char) : List Char :=
  pyStrip (dropTailFence (dropLeadFence (pyStrip resp)))

/-- Model of `DroneCommandProcessor.process_speech`: a transport failure of the
remote call (`Except.error`) and an undecodable response both route to
`_fallback_processing`; a decoded response is returned as is. -/
def processSpeech (remote : Except Unit (List Char)) (text : List Char) : Json :=
  match remote with
  | .error _ => fallbackProcessing text
  | .ok resp =>
    match jsonLoads (stripFences resp) with
    | some j => j
    | none => fallbackProcessing text

/-- A well-formed command record: has an `is_drone_command` boolean, and an
`action` string whenever that boolean is true. -/
def wellFormed (j : Json) : Bool :=
  match j.lookup "is_drone_command".toList with
  | some (.bool false) => true
  | some (.bool true) =>
    match j.lookup "action".toList with
    | some (.str _) => true
    | _ => false
  | _ => false

/-! ## Vehicle collaborator traces -/

/-- One call to the vehicle collaborator (or a blocking wait on it). -/
inductive Event where
  | setVel (vf vr vd yaw : ℚ) : Event
  | setPos (n e d yaw : ℚ) : Event
  | offboardStart : Event
  | offboardStartFail : Event
  | offboardStop : Event
  | actionArm : Event
  | actionDisarm : Event
  | actionTakeoff : Event
  | actionLand : Event
  | actionRtl : Event
  | sleep (secs : ℚ) : Event
  | connect : Event
  | waitHealth : Event
  | report : Event
deriving DecidableEq

/-- Result of one command-loop iteration: the trace of collaborator calls,
the updated `yaw_heading`, and whether the loop `break`s. -/
structure StepResult where
  events : List Event
  yaw : ℚ
  done : Bool
deriving DecidableEq

/-- Distance/angle parameters of a decoded command
(`parameters.get("distance")` / `parameters.get("angle")`). -/
structure Params where
  distance : Option ℚ
  angle : Option ℚ
deriving DecidableEq

/-- The adaptive speed of `enhanced_voice_control`:
`min(3.0, max(0.5, distance / 1.5))`. -/
def adaptiveSpeed (d : ℚ) : ℚ :=
  min 3.0 (max 0.5 (d / 1.5))

/-- Trace of the helper `takeoff(drone, alt)`: stream a zero setpoint, try
to start offboard (early return on rejection), then ascend at 1 m/s for
`alt / abs(-1.0)` seconds and arrest. -/
def takeoffEvents (startOk : Bool) (alt : ℚ) : List Event :=
  [.setVel 0 0 0 0] ++
    (if startOk then
      [.offboardStart, .setVel 0 0 (-1) 0, .sleep (alt / 1), .setVel 0 0 0 0]
    else [.offboardStartFail])

/-- A movement maneuver trace: stream the velocity setpoint at the current
heading, hold for `d / speed` seconds, then arrest with a zero-velocity
setpoint (the speed arguments carry the signed per-axis components; `d` is
the commanded distance used for the hold duration). -/
def moveEvents (vf vr vd d yaw : ℚ) : List Event :=
  [.setVel vf vr vd yaw, .sleep (d / adaptiveSpeed d), .setVel 0 0 0 yaw]

/-- One iteration of the `enhanced_voice_control` loop body after the LLM
interpretation, dispatching on `command_result.get("action")` with
parameters `p` and the current `yaw_heading` (source lines 246-308).
`startOk` tells whether a nested `offboard.start` inside the takeoff helper
succeeds. -/
def enhancedStep (startOk : Bool) (action : Option (List Char)) (p : Params)
    (yaw : ℚ) : StepResult :=
  if action = some "exit".toList then
    ⟨[.offboardStop], yaw, true⟩
  else if action = some "land".toList then
    ⟨[.offboardStop, .actionLand, .sleep 5], yaw, true⟩
  else if action = some "return_home".toList then
    ⟨[.offboardStop, .actionRtl, .sleep 5], yaw, true⟩
  else if action = some "takeoff".toList then
    ⟨[.offboardStop] ++ takeoffEvents startOk (p.distance.getD 2.0) ++ [.offboardStart],
      yaw, false⟩
  else if action = some "stop".toList then
    ⟨[.setVel 0 0 0 yaw], yaw, false⟩
  else if action = some "turn_right".toList then
    ⟨[.setVel 0 0 0 (yaw + p.angle.getD 90), .sleep (p.angle.getD 90 / 30)],
      yaw + p.angle.getD 90, false⟩
  else if action = some "turn_left".toList then
    ⟨[.setVel 0 0 0 (yaw - p.angle.getD 90), .sleep (p.angle.getD 90 / 30)],
      yaw - p.angle.getD 90, false⟩
  else
    if action = some "forward".toList then
      ⟨moveEvents (adaptiveSpeed (p.distance.getD 2.0)) 0 0
        (p.distance.getD 2.0) yaw, yaw, false⟩
    else if action = some "backward".toList then
      ⟨moveEvents (-adaptiveSpeed (p.distance.getD 2.0)) 0 0
        (p.distance.getD 2.0) yaw, yaw, false⟩
    else if action = some "right".toList then
      ⟨moveEvents 0 (adaptiveSpeed (p.distance.getD 2.0)) 0
        (p.distance.getD 2.0) yaw, yaw, false⟩
    else if action = some "left".toList then
      ⟨moveEvents 0 (-adaptiveSpeed (p.distance.getD 2.0)) 0
        (p.distance.getD 2.0) yaw, yaw, false⟩
    else if action = some "up".toList then
      ⟨moveEvents 0 0 (-adaptiveSpeed (p.distance.getD 2.0))
        (p.distance.getD 2.0) yaw, yaw, false⟩
    else if action = some "down".toList then
      ⟨moveEvents 0 0 (adaptiveSpeed (p.distance.getD 2.0))
        (p.distance.getD 2.0) yaw, yaw, false⟩
    else
      ⟨[], yaw, false⟩

/-- The `manual_control` distance clamping:
`distance = max(0.1, min(5.0, float(distance)))`. -/
def manualDist (x : ℚ) : ℚ :=
  max 0.1 (min 5.0 x)

/-- The `manual_control` speed law:
`speed = min(MAX_SPEED, max(MIN_SPEED, distance / TIME_GOAL))` with
`MAX_SPEED = 2.0`, `MIN_SPEED = 0.2`, `TIME_GOAL = 1.5`. -/
def manualSpeed (x : ℚ) : ℚ :=
  min 2.0 (max 0.2 (manualDist x / 1.5))

/-- A `manual_control` movement trace: stream the velocity setpoint, hold
for `duration = distance / speed`, then arrest with a zero setpoint. -/
def manualMove (vf vr vd x yaw : ℚ) : List Event :=
  [.setVel vf vr vd yaw, .sleep (manualDist x / manualSpeed x), .setVel 0 0 0 yaw]

/-- The `input("> ").strip().lower()` normalisation of a manual command. -/
def normCmd (raw : List Char) : List Char :=
  pyLower (pyStrip raw)

/-- One iteration of the `manual_control` loop body on the normalised
command (source lines 340-409).  Failed parses print an error and leave the
state unchanged. -/
def manualStep (raw : List Char) (yaw : ℚ) : StepResult :=
  if normCmd raw = "exit".toList then
    ⟨[.offboardStop], yaw, true⟩
  else if normCmd raw = "land".toList then
    ⟨[.offboardStop, .actionLand, .sleep 5], yaw, true⟩
  else if normCmd raw = "rth".toList then
    ⟨[.offboardStop, .actionRtl, .sleep 5], yaw, true⟩
  else if normCmd raw = "debug".toList then
    ⟨[], yaw, false⟩
  else if startsWith "turn_r".toList (normCmd raw) then
    match splitWsPy (normCmd raw) with
    | [_, ds] =>
      match parseFloat ds with
      | some deg => ⟨[.setVel 0 0 0 (yaw + deg), .sleep (deg / 30)], yaw + deg, false⟩
      | none => ⟨[], yaw, false⟩
    | _ => ⟨[], yaw, false⟩
  else if startsWith "turn_l".toList (normCmd raw) then
    match splitWsPy (normCmd raw) with
    | [_, ds] =>
      match parseFloat ds with
      | some deg => ⟨[.setVel 0 0 0 (yaw - deg), .sleep (deg / 30)], yaw - deg, false⟩
      | none => ⟨[], yaw, false⟩
    | _ => ⟨[], yaw, false⟩
  else if normCmd raw = "turn_b".toList then
    ⟨[.setVel 0 0 0 (yaw + 180), .sleep (180 / 30)], yaw + 180, false⟩
  else
    match splitWsPy (normCmd raw) with
    | [dir, ds] =>
      match parseFloat ds with
      | some x =>
        if dir = "f".toList then
          ⟨manualMove (manualSpeed x) 0 0 x yaw, yaw, false⟩
        else if dir = "b".toList then
          ⟨manualMove (-manualSpeed x) 0 0 x yaw, yaw, false⟩
        else if dir = "r".toList then
          ⟨manualMove 0 (manualSpeed x) 0 x yaw, yaw, false⟩
        else if dir = "l".toList then
          ⟨manualMove 0 (-manualSpeed x) 0 x yaw, yaw, false⟩
        else if dir = "u".toList then
          ⟨manualMove 0 0 (-manualSpeed x) x yaw, yaw, false⟩
        else if dir = "d".toList then
          ⟨manualMove 0 0 (manualSpeed x) x yaw, yaw, false⟩
        else ⟨[], yaw, false⟩
      | none => ⟨[], yaw, false⟩
    | _ => ⟨[], yaw, false⟩

/-- One iteration of the `voice_control_basic` if-chain (before the
unconditional trailing arrest setpoint), on the lowercased utterance
(source lines 518-570). -/
def basicBranch (s : List Char) (yaw : ℚ) : StepResult :=
  if containsSub "exit".toList s then
    ⟨[.offboardStop], yaw, true⟩
  else if containsSub "land".toList s then
    ⟨[.offboardStop, .actionLand, .sleep 5], yaw, true⟩
  else if containsSub "return".toList s || containsSub "home".toList s then
    ⟨[.offboardStop, .actionRtl, .sleep 5], yaw, true⟩
  else if containsSub "turn right".toList s then
    match parseInt (pyStrip (afterLast "right".toList s)) with
    | some z =>
      ⟨[.setVel 0 0 0 (yaw + (z : ℚ)), .sleep ((z : ℚ) / 30)], yaw + (z : ℚ), false⟩
    | none => ⟨[], yaw, false⟩
  else if containsSub "turn left".toList s then
    match parseInt (pyStrip (afterLast "left".toList s)) with
    | some z =>
      ⟨[.setVel 0 0 0 (yaw - (z : ℚ)), .sleep ((z : ℚ) / 30)], yaw - (z : ℚ), false⟩
    | none => ⟨[], yaw, false⟩
  else if containsSub "forward".toList s then
    ⟨[.setVel 2.0 0 0 yaw, .sleep (5.0 / 2.0)], yaw, false⟩
  else if containsSub "back".toList s then
    ⟨[.setVel (-2.0) 0 0 yaw, .sleep (5.0 / 2.0)], yaw, false⟩
  else if containsSub "right".toList s && !containsSub "turn".toList s then
    ⟨[.setVel 0 2.0 0 yaw, .sleep (5.0 / 2.0)], yaw, false⟩
  else if containsSub "left".toList s && !containsSub "turn".toList s then
    ⟨[.setVel 0 (-2.0) 0 yaw, .sleep (5.0 / 2.0)], yaw, false⟩
  else if containsSub "up".toList s then
    ⟨[.setVel 0 0 (-2.0) yaw, .sleep (5.0 / 2.0)], yaw, false⟩
  else if containsSub "down".toList s then
    ⟨[.setVel 0 0 2.0 yaw, .sleep (5.0 / 2.0)], yaw, false⟩
  else
    ⟨[], yaw, false⟩

/-- One iteration of the `voice_control_basic` loop body on the recognised
utterance: lowercase it, run the if-chain, and — unless the branch broke
out of the loop — re-issue the zero-velocity arrest setpoint of source
line 573 at the (possibly updated) heading. -/
def basicStep (speech : List Char) (yaw : ℚ) : StepResult :=
  match basicBranch (pyLower speech) yaw with
  | ⟨es, y2, true⟩ => ⟨es, y2, true⟩
  | ⟨es, y2, false⟩ => ⟨es ++ [.setVel 0 0 0 y2], y2, false⟩

/-! ## Scripted flight profile (`offboard_control.py`) -/

/-- The square-pattern maneuver phase of `offboard_control.run`. -/
def squarePattern : List Event :=
  [.setPos 0 0 (-5) 0, .sleep 5, .setPos 5 0 (-5) 0, .sleep 5,
   .setPos 5 5 (-5) 0, .sleep 5, .setPos 0 5 (-5) 0, .sleep 5,
   .setPos 0 0 (-5) 0, .sleep 5]

/-- Trace of `offboard_control.run`, parameterised by whether the
`offboard.start()` request is accepted: connect, wait for health, arm,
take off, stream the initial position setpoint, then either fly the square
pattern and land, or — on rejection — report the failure, disarm and
return. -/
def offboardRun (startOk : Bool) : List Event :=
  [.connect, .waitHealth, .actionArm, .actionTakeoff, .sleep 5,
   .setPos 0 0 0 0] ++
    (if startOk then [.offboardStart] ++ squarePattern ++ [.actionLand]
     else [.offboardStartFail, .report, .actionDisarm])

/-! ## Trace predicates -/

/-- Is this event a velocity setpoint with a nonzero velocity component? -/
def isNonzeroVel : Event → Bool
  | .setVel a b c _ => !(a == 0 && b == 0 && c == 0)
  | _ => false

/-- Is this event a zero-velocity setpoint? -/
def isZeroSetVel : Event → Bool
  | .setVel a b c _ => a == 0 && b == 0 && c == 0
  | _ => false

/-- Is this event a position or velocity setpoint? -/
def isSetpoint : Event → Bool
  | .setVel _ _ _ _ => true
  | .setPos _ _ _ _ => true
  | _ => false

/-- Is this event a terminal vehicle action (land / return-to-launch)? -/
def isTerminalAction : Event → Bool
  | .actionLand => true
  | .actionRtl => true
  | _ => false

/-- Is this event `offboard.stop()`? -/
def isStop : Event → Bool
  | .offboardStop => true
  | _ => false

/-- Helper for `stopBeforeTerminal`: `seen` records whether an
`offboard.stop()` has already occurred. -/
def stopFirst (seen : Bool) : List Event → Bool
  | [] => true
  | e :: rest => (!(isTerminalAction e) || seen) && stopFirst (seen || isStop e) rest

/-- Every terminal vehicle action in the trace is preceded by an
`offboard.stop()`. -/
def stopBeforeTerminal (es : List Event) : Bool :=
  stopFirst false es

/-- Every nonzero-velocity setpoint in the trace is eventually followed by
a zero-velocity setpoint (no maneuver leaves motion unarrested). -/
def arrested : List Event → Bool
  | [] => true
  | e :: rest => (!(isNonzeroVel e) || rest.any isZeroSetVel) && arrested rest

/-- After every hold (`asyncio.sleep`) in the trace, a zero-velocity
setpoint is issued later. -/
def reissuedAfterHolds : List Event → Bool
  | [] => true
  | .sleep _ :: rest => rest.any isZeroSetVel && reissuedAfterHolds rest
  | _ :: rest => reissuedAfterHolds rest

/-- Every nonzero-velocity setpoint is one of the six fixed-speed-2 axis
vectors and is immediately followed by a 2.5-second hold. -/
def fixedMoveOk : List Event → Bool
  | [] => true
  | [e] => !(isNonzeroVel e)
  | e1 :: e2 :: rest =>
    (!(isNonzeroVel e1) ||
      ((match e1 with
        | .setVel a b c _ =>
          (a == 2 && b == 0 && c == 0) || (a == -2 && b == 0 && c == 0) ||
          (a == 0 && b == 2 && c == 0) || (a == 0 && b == -2 && c == 0) ||
          (a == 0 && b == 0 && c == 2) || (a == 0 && b == 0 && c == -2)
        | _ => false) &&
       (match e2 with
        | .sleep t => t == (5 : ℚ) / 2
        | _ => false))) &&
    fixedMoveOk (e2 :: rest)

/-! ## Spec-side canonical Command Record (for the refinement claim C4) -/

/-- The action enumeration of the spec's Command Record. -/
inductive CmdAction where
  | forward | backward | left | right | up | down
  | turnLeft | turnRight
  | takeoff | land | returnHome | stop | exit | unknown
deriving DecidableEq

/-- The spec's canonical Command Record (confidence is advisory only and
omitted from the fallback path it describes). -/
structure CommandRecord where
  is_command : Bool
  action : CmdAction
  distance : Option ℚ
  angle : Option ℚ
deriving DecidableEq

/-- CmdAction names used in the fallback matcher's records. -/
def actionOfName (a : List Char) : Option CmdAction :=
  if a = "forward".toList then some .forward
  else if a = "backward".toList then some .backward
  else if a = "left".toList then some .left
  else if a = "right".toList then some .right
  else if a = "up".toList then some .up
  else if a = "down".toList then some .down
  else if a = "turn_left".toList then some .turnLeft
  else if a = "turn_right".toList then some .turnRight
  else if a = "takeoff".toList then some .takeoff
  else if a = "land".toList then some .land
  else if a = "return_home".toList then some .returnHome
  else if a = "stop".toList then some .stop
  else if a = "exit".toList then some .exit
  else none

/-- Numeric field of a `parameters` sub-object. -/
def lookupNum (p : Option Json) (k : List Char) : Option ℚ :=
  match p with
  | some q =>
    match q.lookup k with
    | some (.num x) => some x
    | _ => none
  | none => none

/-- Normalise a fallback dict into the spec's canonical Command Record. -/
def toRecord (j : Json) : Option CommandRecord :=
  match j.lookup "is_drone_command".toList with
  | some (.bool false) => some ⟨false, .unknown, none, none⟩
  | some (.bool true) =>
    match j.lookup "action".toList with
    | some (.str a) =>
      match actionOfName a with
      | some act =>
        let p := j.lookup "parameters".toList
        some ⟨true, act, lookupNum p "distance".toList, lookupNum p "angle".toList⟩
      | none => none
    | _ => none
  | _ => none

/-- Modelled from the spec (§4.2 step 3): the Fallback Matcher as an
ordered sequence of keyword-containment checks, first match winning, in the
stated priority order — forward-synonyms, backward-synonyms, left (if
"turn" absent), right (if "turn" absent), up-synonyms, down-synonyms,
"turn right", "turn left", land-synonyms, takeoff-synonyms, home/return-
synonyms, stop/halt/hover-synonyms, exit/quit/end-synonyms — with default
`distance = 2.0` for movement and `angle = 90` for rotation, and a
non-command record otherwise.  (The spec names the synonym categories; the
member keywords are those of the source.) -/
def fallbackSpecCascade (speech : List Char) : CommandRecord :=
  if anyWord speech ["forward".toList, "ahead".toList, "front".toList] then
    ⟨true, .forward, some 2.0, none⟩
  else if anyWord speech ["back".toList, "backward".toList, "reverse".toList] then
    ⟨true, .backward, some 2.0, none⟩
  else if anyWord speech ["left".toList] && !containsSub "turn".toList speech then
    ⟨true, .left, some 2.0, none⟩
  else if anyWord speech ["right".toList] && !containsSub "turn".toList speech then
    ⟨true, .right, some 2.0, none⟩
  else if anyWord speech ["up".toList, "rise".toList, "ascend".toList] then
    ⟨true, .up, some 2.0, none⟩
  else if anyWord speech ["down".toList, "descend".toList, "lower".toList] then
    ⟨true, .down, some 2.0, none⟩
  else if containsSub "turn right".toList speech then
    ⟨true, .turnRight, none, some 90⟩
  else if containsSub "turn left".toList speech then
    ⟨true, .turnLeft, none, some 90⟩
  else if anyWord speech ["land".toList, "landing".toList] then
    ⟨true, .land, none, none⟩
  else if anyWord speech ["takeoff".toList, "take off".toList, "launch".toList] then
    ⟨true, .takeoff, none, none⟩
  else if anyWord speech ["home".toList, "return".toList, "rth".toList] then
    ⟨true, .returnHome, none, none⟩
  else if anyWord speech ["stop".toList, "halt".toList, "hover".toList] then
    ⟨true, .stop, none, none⟩
  else if anyWord speech ["exit".toList, "quit".toList, "end".toList] then
    ⟨true, .exit, none, none⟩
  else
    ⟨false, .unknown, none, none⟩

/-- Modelled from the spec (§4.2): the Fallback Matcher's interface —
lowercase the utterance and run the ordered checks. -/
def fallbackSpec (text : List Char) : CommandRecord :=
  fallbackSpecCascade (pyLower text)

/-! ## Helper lemmas -/

/-- Appending a zero-velocity setpoint arrests every maneuver in a trace. -/
theorem arrested_append_zero (x : Event) (hx : isZeroSetVel x = true)
    (es : List Event) : arrested (es ++ [x]) = true := by
  induction es with
  | nil => cases x <;> simp_all [arrested, isZeroSetVel, isNonzeroVel]
  | cons e rest ih => simp [arrested, ih, List.any_append, hx]

/-- Any dict that `toRecord` normalises successfully is well-formed. -/
theorem toRecord_wellFormed (j : Json) (r : CommandRecord)
    (h : toRecord j = some r) : wellFormed j = true := by
  delta toRecord at h
  delta wellFormed
  rcases hli : Json.lookup "is_drone_command".toList j with _ | jv
  · rw [hli] at h; cases h
  · rw [hli] at h
    cases jv with
    | null => cases h
    | num q => cases h
    | str a => cases h
    | obj fs => cases h
    | bool b =>
      cases b
      · rfl
      · rcases hla : Json.lookup "action".toList j with _ | av
        · rw [hla] at h; cases h
        · rw [hla] at h
          cases av with
          | null => cases h
          | num q => cases h
          | bool c => cases h
          | obj fs => cases h
          | str a => rfl

/-- The fallback cascade of the source, normalised through `toRecord`,
coincides with the spec-side ordered Fallback Matcher on every utterance. -/
theorem fallbackCascade_toRecord (speech : List Char) :
    toRecord (fallbackCascade speech) = some (fallbackSpecCascade speech) := by
  delta fallbackCascade fallbackSpecCascade
  by_cases h1 : anyWord speech ["forward".toList, "ahead".toList, "front".toList] = true
  · rw [if_pos h1, if_pos h1]; rfl
  rw [if_neg h1, if_neg h1]
  by_cases h2 : anyWord speech ["back".toList, "backward".toList, "reverse".toList] = true
  · rw [if_pos h2, if_pos h2]; rfl
  rw [if_neg h2, if_neg h2]
  by_cases h3 : (anyWord speech ["left".toList] && !containsSub "turn".toList speech) = true
  · rw [if_pos h3, if_pos h3]; rfl
  rw [if_neg h3, if_neg h3]
  by_cases h4 : (anyWord speech ["right".toList] && !containsSub "turn".toList speech) = true
  · rw [if_pos h4, if_pos h4]; rfl
  rw [if_neg h4, if_neg h4]
  by_cases h5 : anyWord speech ["up".toList, "rise".toList, "ascend".toList] = true
  · rw [if_pos h5, if_pos h5]; rfl
  rw [if_neg h5, if_neg h5]
  by_cases h6 : anyWord speech ["down".toList, "descend".toList, "lower".toList] = true
  · rw [if_pos h6, if_pos h6]; rfl
  rw [if_neg h6, if_neg h6]
  by_cases h7 : containsSub "turn right".toList speech = true
  · rw [if_pos h7, if_pos h7]; rfl
  rw [if_neg h7, if_neg h7]
  by_cases h8 : containsSub "turn left".toList speech = true
  · rw [if_pos h8, if_pos h8]; rfl
  rw [if_neg h8, if_neg h8]
  by_cases h9 : anyWord speech ["land".toList, "landing".toList] = true
  · rw [if_pos h9, if_pos h9]; rfl
  rw [if_neg h9, if_neg h9]
  by_cases h10 : anyWord speech ["takeoff".toList, "take off".toList, "launch".toList] = true
  · rw [if_pos h10, if_pos h10]; rfl
  rw [if_neg h10, if_neg h10]
  by_cases h11 : anyWord speech ["home".toList, "return".toList, "rth".toList] = true
  · rw [if_pos h11, if_pos h11]; rfl
  rw [if_neg h11, if_neg h11]
  by_cases h12 : anyWord speech ["stop".toList, "halt".toList, "hover".toList] = true
  · rw [if_pos h12, if_pos h12]; rfl
  rw [if_neg h12, if_neg h12]
  by_cases h13 : anyWord speech ["exit".toList, "quit".toList, "end".toList] = true
  · rw [if_pos h13, if_pos h13]; rfl
  rw [if_neg h13, if_neg h13]
  rfl

/-- In the basic voice loop every nonzero-velocity setpoint is one of the
six fixed axis vectors at speed 2 followed by a 2.5 s hold, and every
maneuver ends arrested. -/
theorem basicStep_moves_ok (s : List Char) (y : ℚ) :
    fixedMoveOk (basicStep s y).events = true ∧
      arrested (basicStep s y).events = true := by
  delta basicStep basicBranch
  by_cases h1 : containsSub "exit".toList (pyLower s) = true
  · rw [if_pos h1]; exact ⟨rfl, rfl⟩
  rw [if_neg h1]
  by_cases h2 : containsSub "land".toList (pyLower s) = true
  · rw [if_pos h2]; exact ⟨rfl, rfl⟩
  rw [if_neg h2]
  by_cases h3 : (containsSub "return".toList (pyLower s) || containsSub "home".toList (pyLower s)) = true
  · rw [if_pos h3]; exact ⟨rfl, rfl⟩
  rw [if_neg h3]
  by_cases h4 : containsSub "turn right".toList (pyLower s) = true
  · rw [if_pos h4]
    rcases hp4 : parseInt (pyStrip (afterLast "right".toList (pyLower s))) with _ | z
    · exact ⟨rfl, rfl⟩
    · exact ⟨rfl, rfl⟩
  rw [if_neg h4]
  by_cases h5 : containsSub "turn left".toList (pyLower s) = true
  · rw [if_pos h5]
    rcases hp5 : parseInt (pyStrip (afterLast "left".toList (pyLower s))) with _ | z
    · exact ⟨rfl, rfl⟩
    · exact ⟨rfl, rfl⟩
  rw [if_neg h5]
  by_cases h6 : containsSub "forward".toList (pyLower s) = true
  · rw [if_pos h6]
    exact ⟨by norm_num [fixedMoveOk, isNonzeroVel], by norm_num [arrested, isNonzeroVel, isZeroSetVel]⟩
  rw [if_neg h6]
  by_cases h7 : containsSub "back".toList (pyLower s) = true
  · rw [if_pos h7]
    exact ⟨by norm_num [fixedMoveOk, isNonzeroVel], by norm_num [arrested, isNonzeroVel, isZeroSetVel]⟩
  rw [if_neg h7]
  by_cases h8 : (containsSub "right".toList (pyLower s) && !containsSub "turn".toList (pyLower s)) = true
  · rw [if_pos h8]
    exact ⟨by norm_num [fixedMoveOk, isNonzeroVel], by norm_num [arrested, isNonzeroVel, isZeroSetVel]⟩
  rw [if_neg h8]
  by_cases h9 : (containsSub "left".toList (pyLower s) && !containsSub "turn".toList (pyLower s)) = true
  · rw [if_pos h9]
    exact ⟨by norm_num [fixedMoveOk, isNonzeroVel], by norm_num [arrested, isNonzeroVel, isZeroSetVel]⟩
  rw [if_neg h9]
  by_cases h10 : containsSub "up".toList (pyLower s) = true
  · rw [if_pos h10]
    exact ⟨by norm_num [fixedMoveOk, isNonzeroVel], by norm_num [arrested, isNonzeroVel, isZeroSetVel]⟩
  rw [if_neg h10]
  by_cases h11 : containsSub "down".toList (pyLower s) = true
  · rw [if_pos h11]
    exact ⟨by norm_num [fixedMoveOk, isNonzeroVel], by norm_num [arrested, isNonzeroVel, isZeroSetVel]⟩
  rw [if_neg h11]
  exact ⟨rfl, rfl⟩

/-- Every iteration of the enhanced voice loop leaves no unarrested
nonzero-velocity setpoint. -/
theorem enhancedStep_arrested (k : Bool) (action : Option (List Char))
    (p : Params) (y : ℚ) : arrested (enhancedStep k action p y).events = true := by
  delta enhancedStep
  by_cases h1 : action = some "exit".toList
  · rw [if_pos h1]; rfl
  rw [if_neg h1]
  by_cases h2 : action = some "land".toList
  · rw [if_pos h2]; rfl
  rw [if_neg h2]
  by_cases h3 : action = some "return_home".toList
  · rw [if_pos h3]; rfl
  rw [if_neg h3]
  by_cases h4 : action = some "takeoff".toList
  · rw [if_pos h4]
    delta takeoffEvents
    by_cases hk : k = true
    · rw [if_pos hk]
      norm_num [arrested, isNonzeroVel, isZeroSetVel]
    · rw [if_neg hk]; rfl
  rw [if_neg h4]
  by_cases h5 : action = some "stop".toList
  · rw [if_pos h5]; rfl
  rw [if_neg h5]
  by_cases h6 : action = some "turn_right".toList
  · rw [if_pos h6]; rfl
  rw [if_neg h6]
  by_cases h7 : action = some "turn_left".toList
  · rw [if_pos h7]; rfl
  rw [if_neg h7]
  by_cases h8 : action = some "forward".toList
  · rw [if_pos h8]; norm_num [moveEvents, arrested, isNonzeroVel, isZeroSetVel]
  rw [if_neg h8]
  by_cases h9 : action = some "backward".toList
  · rw [if_pos h9]; norm_num [moveEvents, arrested, isNonzeroVel, isZeroSetVel]
  rw [if_neg h9]
  by_cases h10 : action = some "right".toList
  · rw [if_pos h10]; norm_num [moveEvents, arrested, isNonzeroVel, isZeroSetVel]
  rw [if_neg h10]
  by_cases h11 : action = some "left".toList
  · rw [if_pos h11]; norm_num [moveEvents, arrested, isNonzeroVel, isZeroSetVel]
  rw [if_neg h11]
  by_cases h12 : action = some "up".toList
  · rw [if_pos h12]; norm_num [moveEvents, arrested, isNonzeroVel, isZeroSetVel]
  rw [if_neg h12]
  by_cases h13 : action = some "down".toList
  · rw [if_pos h13]; norm_num [moveEvents, arrested, isNonzeroVel, isZeroSetVel]
  rw [if_neg h13]
  rfl

/-- Every iteration of the manual control loop leaves no unarrested
nonzero-velocity setpoint. -/
theorem manualStep_arrested (raw : List Char) (y : ℚ) :
    arrested (manualStep raw y).events = true := by
  delta manualStep
  by_cases h1 : normCmd raw = "exit".toList
  · rw [if_pos h1]; rfl
  rw [if_neg h1]
  by_cases h2 : normCmd raw = "land".toList
  · rw [if_pos h2]; rfl
  rw [if_neg h2]
  by_cases h3 : normCmd raw = "rth".toList
  · rw [if_pos h3]; rfl
  rw [if_neg h3]
  by_cases h4 : normCmd raw = "debug".toList
  · rw [if_pos h4]; rfl
  rw [if_neg h4]
  by_cases h5 : startsWith "turn_r".toList (normCmd raw) = true
  · rw [if_pos h5]
    rcases hsp : splitWsPy (normCmd raw) with _ | ⟨w1, _ | ⟨w2, _ | ⟨w3, ws⟩⟩⟩
    · rfl
    · rfl
    · dsimp only
      rcases hpf : parseFloat w2 with _ | q
      · rfl
      · rfl
    · rfl
  rw [if_neg h5]
  by_cases h6 : startsWith "turn_l".toList (normCmd raw) = true
  · rw [if_pos h6]
    rcases hsp : splitWsPy (normCmd raw) with _ | ⟨w1, _ | ⟨w2, _ | ⟨w3, ws⟩⟩⟩
    · rfl
    · rfl
    · dsimp only
      rcases hpf : parseFloat w2 with _ | q
      · rfl
      · rfl
    · rfl
  rw [if_neg h6]
  by_cases h7 : normCmd raw = "turn_b".toList
  · rw [if_pos h7]; rfl
  rw [if_neg h7]
  rcases hsp : splitWsPy (normCmd raw) with _ | ⟨w1, _ | ⟨w2, _ | ⟨w3, ws⟩⟩⟩
  · rfl
  · rfl
  · dsimp only
    rcases hpf : parseFloat w2 with _ | q
    · rfl
    · dsimp only
      by_cases hd1 : w1 = "f".toList
      · rw [if_pos hd1]; norm_num [manualMove, arrested, isNonzeroVel, isZeroSetVel]
      rw [if_neg hd1]
      by_cases hd2 : w1 = "b".toList
      · rw [if_pos hd2]; norm_num [manualMove, arrested, isNonzeroVel, isZeroSetVel]
      rw [if_neg hd2]
      by_cases hd3 : w1 = "r".toList
      · rw [if_pos hd3]; norm_num [manualMove, arrested, isNonzeroVel, isZeroSetVel]
      rw [if_neg hd3]
      by_cases hd4 : w1 = "l".toList
      · rw [if_pos hd4]; norm_num [manualMove, arrested, isNonzeroVel, isZeroSetVel]
      rw [if_neg hd4]
      by_cases hd5 : w1 = "u".toList
      · rw [if_pos hd5]; norm_num [manualMove, arrested, isNonzeroVel, isZeroSetVel]
      rw [if_neg hd5]
      by_cases hd6 : w1 = "d".toList
      · rw [if_pos hd6]; norm_num [manualMove, arrested, isNonzeroVel, isZeroSetVel]
      rw [if_neg hd6]
      rfl
  · rfl

/-! ## Claims -/

/-- C1: In the enhanced voice loop, every movement command with distance d
issues a velocity setpoint of magnitude `adaptiveSpeed d =
min(3.0, max(0.5, d / 1.5))` along exactly one axis (forward +/backward -
on the body-forward axis, right +/left - laterally, up as a negative and
down as a positive vertical component), the other two components zero, at
the current heading, holds for `d / speed` seconds and then arrests; in
particular d = 3.0 gives speed 2.0 and hold 1.5 s. -/
theorem claim_C1 :
    (∀ (k : Bool) (d y : ℚ) (ang : Option ℚ),
      enhancedStep k (some "forward".toList) ⟨some d, ang⟩ y =
        ⟨[.setVel (adaptiveSpeed d) 0 0 y, .sleep (d / adaptiveSpeed d),
          .setVel 0 0 0 y], y, false⟩ ∧
      enhancedStep k (some "backward".toList) ⟨some d, ang⟩ y =
        ⟨[.setVel (-adaptiveSpeed d) 0 0 y, .sleep (d / adaptiveSpeed d),
          .setVel 0 0 0 y], y, false⟩ ∧
      enhancedStep k (some "right".toList) ⟨some d, ang⟩ y =
        ⟨[.setVel 0 (adaptiveSpeed d) 0 y, .sleep (d / adaptiveSpeed d),
          .setVel 0 0 0 y], y, false⟩ ∧
      enhancedStep k (some "left".toList) ⟨some d, ang⟩ y =
        ⟨[.setVel 0 (-adaptiveSpeed d) 0 y, .sleep (d / adaptiveSpeed d),
          .setVel 0 0 0 y], y, false⟩ ∧
      enhancedStep k (some "up".toList) ⟨some d, ang⟩ y =
        ⟨[.setVel 0 0 (-adaptiveSpeed d) y, .sleep (d / adaptiveSpeed d),
          .setVel 0 0 0 y], y, false⟩ ∧
      enhancedStep k (some "down".toList) ⟨some d, ang⟩ y =
        ⟨[.setVel 0 0 (adaptiveSpeed d) y, .sleep (d / adaptiveSpeed d),
          .setVel 0 0 0 y], y, false⟩) ∧
    (∀ d : ℚ, adaptiveSpeed d = min 3.0 (max 0.5 (d / 1.5))) ∧
    adaptiveSpeed 3.0 = 2.0 ∧
    (3.0 : ℚ) / adaptiveSpeed 3.0 = 1.5 := by
  refine ⟨fun k d y ang => ⟨rfl, rfl, rfl, rfl, rfl, rfl⟩, fun d => rfl, ?_, ?_⟩
  · rw [adaptiveSpeed]; norm_num [min_def, max_def]
  · rw [adaptiveSpeed]; norm_num [min_def, max_def]

/-- C4: The fallback matcher evaluates its keyword checks in exactly the
spec's priority order with first match winning, producing movement records
with default distance 2.0, rotation records with default angle 90, and a
non-command record when nothing matches: normalising the source cascade
with `toRecord` yields precisely the spec-side ordered matcher
`fallbackSpec`. -/
theorem claim_C4 (text : List Char) :
    toRecord (fallbackProcessing text) = some (fallbackSpec text) :=
  fallbackCascade_toRecord (pyLower text)

/-- Counterexample for C3: a syntactically valid response of the wrong
shape is NOT turned into a well-formed command record: `process_speech`
returns decoded JSON as-is, so the object `\x7b"foo": true\x7d` and the
bare literal `null` are returned unchanged, and neither is a well-formed
record (no `is_drone_command` boolean). -/
theorem claim_C3_counterexample :
    processSpeech (.ok "\x7b\"foo\": true\x7d".toList) "hello there".toList =
      .obj [("foo".toList, .bool true)] ∧
    wellFormed (.obj [("foo".toList, .bool true)]) = false ∧
    processSpeech (.ok "null".toList) "hello there".toList = .null ∧
    wellFormed Json.null = false :=
  ⟨rfl, rfl, rfl, rfl⟩

/-- C3 (amended): `process_speech` never raises to its caller: a transport
failure of the remote call and an undecodable (post-stripping) response are
both routed to the fallback matcher, and the fallback matcher always
returns a well-formed command record; a decodable response, however, is
returned exactly as parsed, well-formed or not. -/
theorem claim_C3 :
    (∀ t, processSpeech (.error ()) t = fallbackProcessing t) ∧
    (∀ r t, jsonLoads (stripFences r) = none →
      processSpeech (.ok r) t = fallbackProcessing t) ∧
    (∀ r t j, jsonLoads (stripFences r) = some j →
      processSpeech (.ok r) t = j) ∧
    (∀ t, wellFormed (fallbackProcessing t) = true) := by
  refine ⟨fun t => rfl, ?_, ?_, ?_⟩
  · intro r t h
    delta processSpeech
    dsimp only
    rw [h]
  · intro r t j h
    delta processSpeech
    dsimp only
    rw [h]
  · intro t
    exact toRecord_wellFormed _ _ (fallbackCascade_toRecord (pyLower t))

/-- Witness for C3: a response that is not JSON routes to the fallback
matcher, which classifies an off-topic utterance as not a command. -/
theorem claim_C3_witness :
    processSpeech (.ok "garbage".toList) "hello there".toList =
      fallbackProcessing "hello there".toList :=
  claim_C3.2.1 "garbage".toList "hello there".toList rfl

/-- C8: When the `offboard.start` request of the scripted profile is
rejected, the run reports the failure, disarms and returns: the trace ends
with the rejection, the report and the disarm, no setpoint follows the
rejection, and only the single pre-start setpoint is ever streamed (the
square-pattern phase is never entered). -/
theorem claim_C8 :
    offboardRun false =
      [.connect, .waitHealth, .actionArm, .actionTakeoff, .sleep 5,
       .setPos 0 0 0 0, .offboardStartFail, .report, .actionDisarm] ∧
    (offboardRun false).drop 6 = [.offboardStartFail, .report, .actionDisarm] ∧
    ((offboardRun false).drop 7).all (fun e => !(isSetpoint e)) = true ∧
    (offboardRun false).countP isSetpoint = 1 :=
  ⟨rfl, rfl, rfl, rfl⟩

/-- C10: The bare `turn_b` command always adds exactly +180 degrees to the
heading (a right/clockwise half turn, never -180), issues a zero-velocity
setpoint at the new heading, and holds for 180 / 30 = 6 seconds. -/
theorem claim_C10 :
    (∀ y : ℚ, manualStep "turn_b".toList y =
      ⟨[.setVel 0 0 0 (y + 180), .sleep (180 / 30)], y + 180, false⟩) ∧
    (180 : ℚ) / 30 = 6 :=
  ⟨fun y => rfl, by norm_num⟩

/-- C2: Every rotation command with angle a sets `new_yaw = old_yaw + a`
(turn_right) or `old_yaw - a` (turn_left), issues a setpoint with zero
velocity in all three components, holds for `a / 30` seconds, and never
wraps or clamps the heading — iterating turns accumulates `n * a` without
bound.  Holds in the enhanced voice loop and in `manual_control`'s
`turn_r`/`turn_l` commands. -/
theorem claim_C2 :
    (∀ (k : Bool) (dOpt : Option ℚ) (a y : ℚ),
      enhancedStep k (some "turn_right".toList) ⟨dOpt, some a⟩ y =
        ⟨[.setVel 0 0 0 (y + a), .sleep (a / 30)], y + a, false⟩ ∧
      enhancedStep k (some "turn_left".toList) ⟨dOpt, some a⟩ y =
        ⟨[.setVel 0 0 0 (y - a), .sleep (a / 30)], y - a, false⟩) ∧
    (∀ (raw w ds : List Char) (y deg : ℚ),
      startsWith "turn_r".toList (normCmd raw) = true →
      splitWsPy (normCmd raw) = [w, ds] →
      parseFloat ds = some deg →
      manualStep raw y =
        ⟨[.setVel 0 0 0 (y + deg), .sleep (deg / 30)], y + deg, false⟩) ∧
    (∀ (raw w ds : List Char) (y deg : ℚ),
      startsWith "turn_r".toList (normCmd raw) = false →
      startsWith "turn_l".toList (normCmd raw) = true →
      splitWsPy (normCmd raw) = [w, ds] →
      parseFloat ds = some deg →
      manualStep raw y =
        ⟨[.setVel 0 0 0 (y - deg), .sleep (deg / 30)], y - deg, false⟩) ∧
    (∀ (k : Bool) (dOpt : Option ℚ) (a y : ℚ) (n : ℕ),
      Nat.iterate
        (fun w => (enhancedStep k (some "turn_right".toList) ⟨dOpt, some a⟩ w).yaw)
        n y = y + n * a) := by
  refine ⟨fun k dOpt a y => ⟨rfl, rfl⟩, ?_, ?_, ?_⟩
  · intro raw w ds y deg hpre hsp hpf
    have hne1 : ¬(normCmd raw = "exit".toList) := by
      intro he; rw [he] at hpre; exact absurd hpre (by decide)
    have hne2 : ¬(normCmd raw = "land".toList) := by
      intro he; rw [he] at hpre; exact absurd hpre (by decide)
    have hne3 : ¬(normCmd raw = "rth".toList) := by
      intro he; rw [he] at hpre; exact absurd hpre (by decide)
    have hne4 : ¬(normCmd raw = "debug".toList) := by
      intro he; rw [he] at hpre; exact absurd hpre (by decide)
    delta manualStep
    rw [if_neg hne1, if_neg hne2, if_neg hne3, if_neg hne4, if_pos hpre, hsp]
    dsimp only
    rw [hpf]
  · intro raw w ds y deg hnr hpre hsp hpf
    have hne1 : ¬(normCmd raw = "exit".toList) := by
      intro he; rw [he] at hpre; exact absurd hpre (by decide)
    have hne2 : ¬(normCmd raw = "land".toList) := by
      intro he; rw [he] at hpre; exact absurd hpre (by decide)
    have hne3 : ¬(normCmd raw = "rth".toList) := by
      intro he; rw [he] at hpre; exact absurd hpre (by decide)
    have hne4 : ¬(normCmd raw = "debug".toList) := by
      intro he; rw [he] at hpre; exact absurd hpre (by decide)
    have hne5 : ¬(startsWith "turn_r".toList (normCmd raw) = true) := by
      rw [hnr]; decide
    delta manualStep
    rw [if_neg hne1, if_neg hne2, if_neg hne3, if_neg hne4, if_neg hne5,
      if_pos hpre, hsp]
    dsimp only
    rw [hpf]
  · intro k dOpt a y n
    induction n with
    | zero => simp
    | succ m ih =>
      rw [Function.iterate_succ_apply', ih]
      show y + m * a + a = y + (m + 1 : ℕ) * a
      push_cast
      ring

/-- Witness for C2: `turn_r 45` at heading 0 turns to heading 45 with a
zero-velocity setpoint and a 45/30 s hold. -/
theorem claim_C2_witness :
    manualStep "turn_r 45".toList 0 =
      ⟨[.setVel 0 0 0 (0 + 45), .sleep (45 / 30)], 0 + 45, false⟩ :=
  claim_C2.2.1 "turn_r 45".toList "turn_r".toList "45".toList 0 45
    (by rfl) (by rfl) (by rfl)

/-- C5: In all three command loops, a land, return_home/rth or exit command
stops offboard streaming first, only then issues the terminal vehicle
action (land / return-to-launch), and breaks out of the loop; the traces
satisfy `stopBeforeTerminal` (a stop always precedes any terminal action,
never the reverse). -/
theorem claim_C5 :
    (∀ (k : Bool) (p : Params) (y : ℚ),
      enhancedStep k (some "exit".toList) p y = ⟨[.offboardStop], y, true⟩ ∧
      enhancedStep k (some "land".toList) p y =
        ⟨[.offboardStop, .actionLand, .sleep 5], y, true⟩ ∧
      enhancedStep k (some "return_home".toList) p y =
        ⟨[.offboardStop, .actionRtl, .sleep 5], y, true⟩) ∧
    (∀ y : ℚ,
      manualStep "exit".toList y = ⟨[.offboardStop], y, true⟩ ∧
      manualStep "land".toList y =
        ⟨[.offboardStop, .actionLand, .sleep 5], y, true⟩ ∧
      manualStep "rth".toList y =
        ⟨[.offboardStop, .actionRtl, .sleep 5], y, true⟩) ∧
    (∀ (s : List Char) (y : ℚ),
      (containsSub "exit".toList (pyLower s) = true →
        basicStep s y = ⟨[.offboardStop], y, true⟩) ∧
      (containsSub "exit".toList (pyLower s) = false →
        containsSub "land".toList (pyLower s) = true →
        basicStep s y = ⟨[.offboardStop, .actionLand, .sleep 5], y, true⟩) ∧
      (containsSub "exit".toList (pyLower s) = false →
        containsSub "land".toList (pyLower s) = false →
        (containsSub "return".toList (pyLower s) ||
          containsSub "home".toList (pyLower s)) = true →
        basicStep s y = ⟨[.offboardStop, .actionRtl, .sleep 5], y, true⟩)) ∧
    stopBeforeTerminal [.offboardStop] = true ∧
    stopBeforeTerminal [.offboardStop, .actionLand, .sleep 5] = true ∧
    stopBeforeTerminal [.offboardStop, .actionRtl, .sleep 5] = true := by
  refine ⟨fun k p y => ⟨rfl, rfl, rfl⟩, fun y => ⟨rfl, rfl, rfl⟩, ?_, rfl, rfl, rfl⟩
  intro s y
  refine ⟨?_, ?_, ?_⟩
  · intro h1
    delta basicStep basicBranch
    rw [if_pos h1]
  · intro h1 h2
    delta basicStep basicBranch
    rw [if_neg (by rw [h1]; decide), if_pos h2]
  · intro h1 h2 h3
    delta basicStep basicBranch
    rw [if_neg (by rw [h1]; decide), if_neg (by rw [h2]; decide), if_pos h3]

/-- Witness for C5: the basic voice loop on "land the drone" stops
offboard streaming, then lands, then breaks. -/
theorem claim_C5_witness :
    basicStep "land the drone".toList 0 =
      ⟨[.offboardStop, .actionLand, .sleep 5], 0, true⟩ :=
  (claim_C5.2.2.1 "land the drone".toList 0).2.1 (by rfl) (by rfl)

/-- Counterexample for C6: a rotation command in the enhanced voice loop
issues its (zero-velocity) setpoint BEFORE the hold and nothing after it —
no setpoint of any kind is re-issued once the hold duration elapses, so
the hold is not followed by a re-issued zero-velocity setpoint. -/
theorem claim_C6_counterexample :
    (enhancedStep true (some "turn_right".toList) ⟨none, some 90⟩ 0).events =
      [.setVel 0 0 0 (0 + 90), .sleep (90 / 30)] ∧
    reissuedAfterHolds
      ((enhancedStep true (some "turn_right".toList) ⟨none, some 90⟩ 0).events) =
      false :=
  ⟨rfl, rfl⟩

/-- C6 (amended): after every movement hold, in every loop, a zero-velocity
setpoint at the heading is re-issued; rotation holds in the enhanced and
manual loops are already held at a zero-velocity setpoint and no setpoint
follows the hold; the basic loop re-issues a zero-velocity setpoint at the
(possibly updated) heading after every non-terminating branch; and in all
three loops no maneuver leaves a nonzero velocity setpoint unarrested. -/
theorem claim_C6 :
    (∀ (k : Bool) (action : Option (List Char)) (p : Params) (y : ℚ),
      arrested (enhancedStep k action p y).events = true) ∧
    (∀ (raw : List Char) (y : ℚ), arrested (manualStep raw y).events = true) ∧
    (∀ (s : List Char) (y : ℚ), arrested (basicStep s y).events = true) ∧
    (∀ (k : Bool) (d y : ℚ) (ang : Option ℚ),
      reissuedAfterHolds
        ((enhancedStep k (some "forward".toList) ⟨some d, ang⟩ y).events) = true ∧
      reissuedAfterHolds
        ((enhancedStep k (some "backward".toList) ⟨some d, ang⟩ y).events) = true ∧
      reissuedAfterHolds
        ((enhancedStep k (some "right".toList) ⟨some d, ang⟩ y).events) = true ∧
      reissuedAfterHolds
        ((enhancedStep k (some "left".toList) ⟨some d, ang⟩ y).events) = true ∧
      reissuedAfterHolds
        ((enhancedStep k (some "up".toList) ⟨some d, ang⟩ y).events) = true ∧
      reissuedAfterHolds
        ((enhancedStep k (some "down".toList) ⟨some d, ang⟩ y).events) = true) ∧
    (∀ v1 v2 v3 x y : ℚ, reissuedAfterHolds (manualMove v1 v2 v3 x y) = true) ∧
    (∀ (k : Bool) (dOpt : Option ℚ) (a y : ℚ),
      (enhancedStep k (some "turn_right".toList) ⟨dOpt, some a⟩ y).events =
        [.setVel 0 0 0 (y + a), .sleep (a / 30)] ∧
      (enhancedStep k (some "turn_left".toList) ⟨dOpt, some a⟩ y).events =
        [.setVel 0 0 0 (y - a), .sleep (a / 30)]) ∧
    (∀ (s : List Char) (y : ℚ), (basicStep s y).done = false →
      (basicStep s y).events.getLast? =
        some (.setVel 0 0 0 (basicStep s y).yaw)) := by
  refine ⟨enhancedStep_arrested, manualStep_arrested,
    fun s y => (basicStep_moves_ok s y).2,
    fun k d y ang => ⟨rfl, rfl, rfl, rfl, rfl, rfl⟩,
    fun v1 v2 v3 x y => rfl,
    fun k dOpt a y => ⟨rfl, rfl⟩, ?_⟩
  intro s y h
  delta basicStep at h ⊢
  rcases hb : basicBranch (pyLower s) y with ⟨es, y2, d⟩
  rw [hb] at h
  cases d
  · show (es ++ [Event.setVel 0 0 0 y2]).getLast? = some (Event.setVel 0 0 0 y2)
    exact List.getLast?_concat es
  · exact Bool.noConfusion h

/-- Witness for C6: after the basic loop's "go forward" maneuver the last
issued setpoint is the re-issued zero-velocity arrest at the heading. -/
theorem claim_C6_witness :
    (basicStep "go forward".toList 0).events.getLast? =
      some (.setVel 0 0 0 (basicStep "go forward".toList 0).yaw) :=
  claim_C6.2.2.2.2.2.2 "go forward".toList 0 (by rfl)

/-- C9: In the basic (non-LLM) voice loop every recognised movement command
moves at the fixed speed 2.0 m/s for 5.0 / 2.0 = 2.5 seconds (a fixed
5-meter leg) whatever the utterance says — every nonzero-velocity setpoint
the loop ever issues is one of the six fixed axis vectors at speed 2
followed by a 2.5 s hold; spoken numbers reach only the rotation branch,
whose parsed integer sets the turn angle and hold. -/
theorem claim_C9 :
    (∀ (s : List Char) (y : ℚ), fixedMoveOk (basicStep s y).events = true) ∧
    (5.0 : ℚ) / 2.0 = 2.5 ∧
    (∀ (s : List Char) (y : ℚ) (z : ℤ),
      containsSub "exit".toList (pyLower s) = false →
      containsSub "land".toList (pyLower s) = false →
      (containsSub "return".toList (pyLower s) ||
        containsSub "home".toList (pyLower s)) = false →
      containsSub "turn right".toList (pyLower s) = true →
      parseInt (pyStrip (afterLast "right".toList (pyLower s))) = some z →
      basicStep s y =
        ⟨[.setVel 0 0 0 (y + (z : ℚ)), .sleep ((z : ℚ) / 30),
          .setVel 0 0 0 (y + (z : ℚ))], y + (z : ℚ), false⟩) := by
  refine ⟨fun s y => (basicStep_moves_ok s y).1, by norm_num, ?_⟩
  intro s y z h1 h2 h3 h4 hp
  delta basicStep basicBranch
  rw [if_neg (by rw [h1]; decide), if_neg (by rw [h2]; decide),
    if_neg (by rw [h3]; decide), if_pos h4, hp]
  rfl

/-- Witness for C9: "turn right 90" turns by the spoken 90 degrees with a
3-second hold, while the surrounding zero-velocity setpoints show no
movement distance was taken from the utterance. -/
theorem claim_C9_witness :
    basicStep "turn right 90".toList 0 =
      ⟨[.setVel 0 0 0 (0 + ((90 : ℤ) : ℚ)), .sleep (((90 : ℤ) : ℚ) / 30),
        .setVel 0 0 0 (0 + ((90 : ℤ) : ℚ))], 0 + ((90 : ℤ) : ℚ), false⟩ :=
  claim_C9.2.2 "turn right 90".toList 0 90
    (by rfl) (by rfl) (by rfl) (by rfl) (by rfl)

/-- A pattern is a prefix of any of its extensions. -/
theorem startsWith_append (p l : List Char) : startsWith p (p ++ l) = true := by
  induction p with
  | nil => rfl
  | cons c cs ih => simp [startsWith, ih]

/-- A response wrapped in markdown fences with nothing outside them strips
to exactly the whitespace-stripped fenced body, so the JSON decoder sees
the body itself. -/
theorem stripFences_fence (body : List Char) :
    stripFences ("```json".toList ++ (body ++ "```".toList)) = pyStrip body := by
  have h1 : pyStrip ("```json".toList ++ (body ++ "```".toList)) =
      "```json".toList ++ (body ++ "```".toList) := by
    delta pyStrip
    rw [show List.dropWhile pySpace ("```json".toList ++ (body ++ "```".toList)) =
      "```json".toList ++ (body ++ "```".toList) from rfl]
    rw [List.reverse_append, List.reverse_append]
    rw [show List.dropWhile pySpace
      (("```".toList.reverse ++ body.reverse) ++ "```json".toList.reverse) =
      ("```".toList.reverse ++ body.reverse) ++ "```json".toList.reverse from rfl]
    simp
  have h2 : dropLeadFence ("```json".toList ++ (body ++ "```".toList)) =
      body ++ "```".toList := by
    delta dropLeadFence
    rw [if_pos (startsWith_append "```json".toList (body ++ "```".toList))]
    rfl
  have h3 : dropTailFence (body ++ "```".toList) = body := by
    delta dropTailFence endsWith
    rw [List.reverse_append]
    rw [if_pos (startsWith_append "```".toList.reverse body.reverse)]
    rw [show (body ++ "```".toList).length - 3 = body.length from by simp]
    exact List.take_left' rfl
  delta stripFences
  rw [h1, h2, h3]

/-- C7 (amended): markdown code-fence wrapping is stripped before JSON
decoding, so a response wrapped in fences with nothing after the closing
fence is parsed into exactly the record the fenced body decodes to; a
response that is not valid JSON after stripping — including a fenced
response with trailing prose after the closing fence, whose suffix check
fails so the closing fence is never removed — is routed to the fallback
matcher without an exception escaping. -/
theorem claim_C7 :
    (∀ body : List Char,
      stripFences ("```json".toList ++ (body ++ "```".toList)) = pyStrip body) ∧
    (∀ (body t : List Char) (j : Json),
      jsonLoads (pyStrip body) = some j →
      processSpeech (.ok ("```json".toList ++ (body ++ "```".toList))) t = j) ∧
    (∀ r t : List Char,
      jsonLoads (stripFences r) = none →
      processSpeech (.ok r) t = fallbackProcessing t) := by
  refine ⟨stripFences_fence, ?_, ?_⟩
  · intro body t j h
    delta processSpeech
    dsimp only
    rw [stripFences_fence, h]
  · intro r t h
    delta processSpeech
    dsimp only
    rw [h]

/-- Witness for C7: a fenced land-command response with nothing after the
closing fence decodes to the land record. -/
theorem claim_C7_witness :
    processSpeech
      (.ok ("```json".toList ++
        ((" \x7b\"is_drone_command\": true, \"action\": \"land\", " ++
          "\"parameters\": \x7b\x7d\x7d ").toList ++ "```".toList)))
      "xyzzy".toList =
      .obj [("is_drone_command".toList, .bool true),
            ("action".toList, .str "land".toList),
            ("parameters".toList, .obj [])] :=
  claim_C7.2.1
    (" \x7b\"is_drone_command\": true, \"action\": \"land\", " ++
      "\"parameters\": \x7b\x7d\x7d ").toList
    "xyzzy".toList
    (.obj [("is_drone_command".toList, .bool true),
           ("action".toList, .str "land".toList),
           ("parameters".toList, .obj [])])
    (by rfl)

/-- Counterexample for C7: the same fenced land-command response with
trailing prose after the closing fence is NOT parsed into the land record:
the trailing prose defeats the suffix check, JSON decoding fails, and the
adapter returns the fallback matcher's non-command record
(`is_drone_command` false) instead of the fenced record
(`is_drone_command` true), which the prose-free response does produce. -/
theorem claim_C7_counterexample :
    processSpeech
      (.ok ("```json \x7b\"is_drone_command\": true, \"action\": \"land\", " ++
        "\"parameters\": \x7b\x7d\x7d ``` Hope this helps!").toList)
      "xyzzy".toList =
      fallbackProcessing "xyzzy".toList ∧
    Json.lookup "is_drone_command".toList (fallbackProcessing "xyzzy".toList) =
      some (.bool false) ∧
    processSpeech
      (.ok ("```json \x7b\"is_drone_command\": true, \"action\": \"land\", " ++
        "\"parameters\": \x7b\x7d\x7d ```").toList)
      "xyzzy".toList =
      .obj [("is_drone_command".toList, .bool true),
            ("action".toList, .str "land".toList),
            ("parameters".toList, .obj [])] ∧
    Json.lookup "is_drone_command".toList
      (.obj [("is_drone_command".toList, .bool true),
             ("action".toList, .str "land".toList),
             ("parameters".toList, .obj [])]) = some (.bool true) :=
  ⟨rfl, rfl, rfl, rfl⟩
